import Mathlib

set_option maxHeartbeats 1000000

/- Verification of the application composition and lifecycle module of the
InsightSerenity repository, a shallow embedding of src/app.js. -/

/- ===== String primitives used by the embedding ===== -/

/-- Digit character test, the d character class of the origin patterns. -/
def isDigitChar (c : Char) : Bool :=
  48 ≤ c.toNat && c.toNat ≤ 57

/-- Whitespace character test used by the JavaScript trim operation: the
ECMAScript WhiteSpace and LineTerminator code points, that is tab through
carriage return, space, no-break space, ogham space mark, the en quad through
hair space range, line and paragraph separators, narrow no-break space, medium
mathematical space, ideographic space, and the byte order mark. -/
def isSpaceChar (c : Char) : Bool :=
  c.toNat = 32 || (9 ≤ c.toNat && c.toNat ≤ 13) || c.toNat = 160 || c.toNat = 5760 ||
    (8192 ≤ c.toNat && c.toNat ≤ 8202) || c.toNat = 8232 || c.toNat = 8233 ||
    c.toNat = 8239 || c.toNat = 8287 || c.toNat = 12288 || c.toNat = 65279

/-- Removes leading and trailing whitespace from a character list. -/
def trimChars (l : List Char) : List Char :=
  ((l.dropWhile isSpaceChar).reverse.dropWhile isSpaceChar).reverse

/-- The JavaScript string trim operation. -/
def jsTrim (s : String) : String :=
  ⟨trimChars s.data⟩

/-- Whether the first character list begins with the second one. -/
def leadsWith (s pat : List Char) : Bool :=
  match s, pat with
  | _, [] => true
  | [], _ :: _ => false
  | c :: cs, d :: ds => c == d && leadsWith cs ds

/- ===== CORS origin predicate, from setupMiddleware ===== -/

/-- Result of the per-request CORS origin check in setupMiddleware. -/
inductive CorsResult
  | allow
  | corsError
deriving DecidableEq, Repr

/-- The optional port group of the development origin patterns: either empty
or a colon followed by one or more digits. -/
def isPortSuffix : List Char → Bool
  | [] => true
  | c :: rest => c == Char.ofNat 58 && !rest.isEmpty && rest.all isDigitChar

/-- Strips the scheme part, http or https with separator, from an origin. -/
def afterScheme (l : List Char) : Option (List Char) :=
  if leadsWith l ("http://".data) then some (l.drop 7)
  else if leadsWith l ("https://".data) then some (l.drop 8)
  else none

/-- The localhost pattern of the development fallback: a scheme, the host
localhost, and an optional port. -/
def isLocalhostOrigin (s : String) : Bool :=
  match afterScheme s.data with
  | some rest => leadsWith rest ("localhost".data) && isPortSuffix (rest.drop 9)
  | none => false

/-- The loopback pattern of the development fallback: a scheme, the host
127.0.0.1, and an optional port. -/
def isLoopbackOrigin (s : String) : Bool :=
  match afterScheme s.data with
  | some rest => leadsWith rest ("127.0.0.1".data) && isPortSuffix (rest.drop 9)
  | none => false

/-- The private LAN pattern of the development fallback: a scheme, a host of
the form 10.0.0.d with one or more digits d, and an optional port. -/
def isPrivateLanOrigin (s : String) : Bool :=
  match afterScheme s.data with
  | some rest =>
      leadsWith rest ("10.0.0.".data) &&
        !((rest.drop 7).takeWhile isDigitChar).isEmpty &&
        isPortSuffix ((rest.drop 7).dropWhile isDigitChar)
  | none => false

/-- The development fallback of the CORS origin callback: origins matching the
localhost, loopback or private LAN patterns on any port. -/
def isDevLocalOrigin (s : String) : Bool :=
  isLocalhostOrigin s || isLoopbackOrigin s || isPrivateLanOrigin s

/-- The per-request CORS origin callback configured in setupMiddleware. The
first guard is the JavaScript falsiness test on the origin, which allows an
absent origin and also a present but empty origin string; an origin whose
trimmed form is among the trimmed configured origins is allowed; in the
development environment, origins matching the local patterns are allowed;
every other origin yields an error. -/
def corsOriginDecision (env : String) (origins : List String) (origin : Option String) :
    CorsResult :=
  match origin with
  | none => CorsResult.allow
  | some o =>
      if o = "" then CorsResult.allow
      else if jsTrim o ∈ origins.map jsTrim then CorsResult.allow
      else if env = "development" ∧ isDevLocalOrigin (jsTrim o) = true then CorsResult.allow
      else CorsResult.corsError

/-- C1: the CORS origin predicate allows a request origin R iff R is absent in
the sense of the falsiness guard of the callback, that is missing or the empty
string, or the trimmed R is a member of the trimmed configured origin list, or
the environment is development and R matches a localhost, loopback or private
LAN pattern on any port; every other origin yields a CORS error. -/
theorem c1_cors_origin_allow_iff (env : String) (origins : List String)
    (origin : Option String) :
    (corsOriginDecision env origins origin = CorsResult.allow ↔
      origin = none ∨
        ∃ o, origin = some o ∧
          (o = "" ∨ jsTrim o ∈ origins.map jsTrim ∨
            (env = "development" ∧ isDevLocalOrigin (jsTrim o) = true))) ∧
    (corsOriginDecision env origins origin = CorsResult.corsError ↔
      ∃ o, origin = some o ∧ ¬ o = "" ∧
        ¬ jsTrim o ∈ origins.map jsTrim ∧
        ¬ (env = "development" ∧ isDevLocalOrigin (jsTrim o) = true)) := by
  cases origin with
  | none => simp [corsOriginDecision]
  | some o =>
      by_cases h0 : o = ""
      · have hd : corsOriginDecision env origins (some o) = CorsResult.allow := by
          show (if o = "" then CorsResult.allow
            else if jsTrim o ∈ origins.map jsTrim then CorsResult.allow
            else if env = "development" ∧ isDevLocalOrigin (jsTrim o) = true then
              CorsResult.allow
            else CorsResult.corsError) = CorsResult.allow
          rw [if_pos h0]
        refine ⟨⟨fun _ => Or.inr ⟨o, rfl, Or.inl h0⟩, fun _ => hd⟩, fun h => ?_, fun h => ?_⟩
        · rw [hd] at h
          cases h
        · obtain ⟨o2, ho2, hne, _, _⟩ := h
          obtain rfl := Option.some.inj ho2
          exact absurd h0 hne
      · by_cases h1 : jsTrim o ∈ origins.map jsTrim
        · have hd : corsOriginDecision env origins (some o) = CorsResult.allow := by
            show (if o = "" then CorsResult.allow
              else if jsTrim o ∈ origins.map jsTrim then CorsResult.allow
              else if env = "development" ∧ isDevLocalOrigin (jsTrim o) = true then
                CorsResult.allow
              else CorsResult.corsError) = CorsResult.allow
            rw [if_neg h0, if_pos h1]
          refine ⟨⟨fun _ => Or.inr ⟨o, rfl, Or.inr (Or.inl h1)⟩, fun _ => hd⟩,
            fun h => ?_, fun h => ?_⟩
          · rw [hd] at h
            cases h
          · obtain ⟨o2, ho2, _, hnm, _⟩ := h
            obtain rfl := Option.some.inj ho2
            exact absurd h1 hnm
        · by_cases h2 : env = "development" ∧ isDevLocalOrigin (jsTrim o) = true
          · have hd : corsOriginDecision env origins (some o) = CorsResult.allow := by
              show (if o = "" then CorsResult.allow
                else if jsTrim o ∈ origins.map jsTrim then CorsResult.allow
                else if env = "development" ∧ isDevLocalOrigin (jsTrim o) = true then
                  CorsResult.allow
                else CorsResult.corsError) = CorsResult.allow
              rw [if_neg h0, if_neg h1, if_pos h2]
            refine ⟨⟨fun _ => Or.inr ⟨o, rfl, Or.inr (Or.inr h2)⟩, fun _ => hd⟩,
              fun h => ?_, fun h => ?_⟩
            · rw [hd] at h
              cases h
            · obtain ⟨o2, ho2, _, _, hdev⟩ := h
              obtain rfl := Option.some.inj ho2
              exact absurd h2 hdev
          · have hd : corsOriginDecision env origins (some o) = CorsResult.corsError := by
              show (if o = "" then CorsResult.allow
                else if jsTrim o ∈ origins.map jsTrim then CorsResult.allow
                else if env = "development" ∧ isDevLocalOrigin (jsTrim o) = true then
                  CorsResult.allow
                else CorsResult.corsError) = CorsResult.corsError
              rw [if_neg h0, if_neg h1, if_neg h2]
            refine ⟨⟨fun h => ?_, fun h => ?_⟩, fun _ => ⟨o, rfl, h0, h1, h2⟩, fun _ => hd⟩
            · rw [hd] at h
              cases h
            · rcases h with hnone | ⟨o2, ho2, hemp | hmem | hdev⟩
              · exact absurd hnone (Option.some_ne_none o)
              · obtain rfl := Option.some.inj ho2
                exact absurd hemp h0
              · obtain rfl := Option.some.inj ho2
                exact absurd hmem h1
              · obtain rfl := Option.some.inj ho2
                exact absurd hdev h2

/- ===== Configuration snapshot ===== -/

/-- JavaScript logical-or defaulting for a possibly-absent string value: an
absent or empty string is falsy and selects the default. -/
def jsOrStr (v : Option String) (d : String) : String :=
  match v with
  | none => d
  | some s => if s = "" then d else s

/-- JavaScript truthiness of a possibly-absent numeric value: absent and zero
are falsy, every other number is truthy. -/
def jsTruthyNum (v : Option Int) : Bool :=
  match v with
  | none => false
  | some n => n != 0

/-- The configuration snapshot fields consumed by the application module. -/
structure Config where
  env : String
  name : Option String
  version : Option String
  url : String
  apiVer : Option String
  apiPref : Option String
  uploadLimit : Option String
  helmetEnabled : Bool
  corsEnabled : Bool
  corsOrigins : List String
  sanitizeEnabled : Bool
  loggingEnabled : Bool
  sessionStore : String
  idleTimeout : Option Int
deriving Repr

/- ===== Middleware pipeline, from setupMiddleware ===== -/

/-- The idle timeout threshold handed to the session manager, in minutes,
converted from the millisecond configuration value. -/
def idleMinutes (v : Option Int) : ℚ :=
  match v with
  | none => 0
  | some n => (n : ℚ) / 60000

/-- The middleware stages installed by setupMiddleware. -/
inductive Stage
  | trustProxy
  | helmet
  | corsStage
  | jsonParser
  | urlencodedParser
  | sanitize
  | cookieParsing
  | compress
  | methodOverrideField
  | methodOverrideHeader
  | staticUploads
  | staticPublic
  | httpLogging
  | morganDev
  | session
  | flash
  | flashLocals
  | sessionSecurity
  | sessionActivity
  | idleTimeoutStage (minutes : ℚ)
  | connTracking
deriving DecidableEq, Repr

/-- The ordered middleware pipeline assembled by setupMiddleware from the
configuration snapshot. -/
def setupMiddleware (cfg : Config) : List Stage :=
  (if cfg.env = "production" then [Stage.trustProxy] else []) ++
  (if cfg.helmetEnabled then [Stage.helmet] else []) ++
  (if cfg.corsEnabled then [Stage.corsStage] else []) ++
  [Stage.jsonParser, Stage.urlencodedParser] ++
  (if cfg.sanitizeEnabled then [Stage.sanitize] else []) ++
  [Stage.cookieParsing, Stage.compress, Stage.methodOverrideField,
    Stage.methodOverrideHeader, Stage.staticUploads, Stage.staticPublic] ++
  (if cfg.loggingEnabled then
    [Stage.httpLogging] ++ (if cfg.env = "development" then [Stage.morganDev] else [])
  else []) ++
  [Stage.session, Stage.flash, Stage.flashLocals, Stage.sessionSecurity,
    Stage.sessionActivity] ++
  (if jsTruthyNum cfg.idleTimeout then [Stage.idleTimeoutStage (idleMinutes cfg.idleTimeout)]
  else []) ++
  [Stage.connTracking]

/-- The origin check a request experiences against the assembled pipeline: the
CORS origin callback runs only when the CORS stage was installed; with no CORS
stage every origin passes. -/
def requestCorsOutcome (pipeline : List Stage) (env : String) (origins : List String)
    (origin : Option String) : CorsResult :=
  if Stage.corsStage ∈ pipeline then corsOriginDecision env origins origin
  else CorsResult.allow

/-- C8: when the CORS feature is disabled in the configuration snapshot, no
CORS middleware is installed at all, and every origin passes the pipeline
origin check. -/
theorem c8_cors_disabled_all_origins_pass (cfg : Config) (h : cfg.corsEnabled = false) :
    Stage.corsStage ∉ setupMiddleware cfg ∧
      ∀ origin : Option String,
        requestCorsOutcome (setupMiddleware cfg) cfg.env cfg.corsOrigins origin =
          CorsResult.allow := by
  have hmem : Stage.corsStage ∉ setupMiddleware cfg := by
    simp only [setupMiddleware, h, if_false, List.mem_append, List.mem_cons,
      List.mem_singleton]
    intro hc
    rcases hc with ((((((((h1 | h2) | h3) | h4) | h5) | h6) | h7) | h8) | h9) | h10 <;>
      first
        | (split at h1 <;> simp_all)
        | (split at h2 <;> simp_all)
        | (split at h3 <;> simp_all)
        | (split at h5 <;> simp_all)
        | (split at h7 <;> (try split at h7) <;> simp_all)
        | (split at h9 <;> simp_all)
        | simp_all
  exact ⟨hmem, fun origin => by simp [requestCorsOutcome, hmem]⟩

/-- A sample configuration with CORS disabled, for evaluation. -/
def cfgNoCors : Config :=
  { env := "production", name := some "svc", version := none, url := "https://x.example",
    apiVer := none, apiPref := none, uploadLimit := none, helmetEnabled := true,
    corsEnabled := false, corsOrigins := [], sanitizeEnabled := true,
    loggingEnabled := true, sessionStore := "mongodb", idleTimeout := none }

/-- Witness for C8 at a concrete configuration and origin. -/
theorem c8_witness :
    Stage.corsStage ∉ setupMiddleware cfgNoCors ∧
      requestCorsOutcome (setupMiddleware cfgNoCors) cfgNoCors.env cfgNoCors.corsOrigins
          (some "https://evil.example") = CorsResult.allow :=
  ⟨(c8_cors_disabled_all_origins_pass cfgNoCors rfl).1,
    (c8_cors_disabled_all_origins_pass cfgNoCors rfl).2 (some "https://evil.example")⟩

/-- C9: an absent or zero session idle-timeout installs no idle-session-timeout
middleware at all; a positive millisecond value installs it with a threshold
of that value divided by 60000 minutes. -/
theorem c9_idle_timeout_install (cfg : Config) :
    ((cfg.idleTimeout = none ∨ cfg.idleTimeout = some 0) →
      ∀ q : ℚ, Stage.idleTimeoutStage q ∉ setupMiddleware cfg) ∧
    (∀ v : Int, cfg.idleTimeout = some v → 0 < v →
      Stage.idleTimeoutStage ((v : ℚ) / 60000) ∈ setupMiddleware cfg) := by
  constructor
  · intro habs q
    have htr : jsTruthyNum cfg.idleTimeout = false := by
      rcases habs with h | h <;> simp [jsTruthyNum, h]
    simp only [setupMiddleware, htr, if_false, List.mem_append, List.mem_cons,
      List.mem_singleton]
    intro hc
    rcases hc with ((((((((h1 | h2) | h3) | h4) | h5) | h6) | h7) | h8) | h9) | h10 <;>
      first
        | (split at h1 <;> simp_all)
        | (split at h2 <;> simp_all)
        | (split at h3 <;> simp_all)
        | (split at h5 <;> simp_all)
        | (split at h7 <;> (try split at h7) <;> simp_all)
        | (split at h9 <;> simp_all)
        | simp_all
  · intro v hv hpos
    have htr : jsTruthyNum cfg.idleTimeout = true := by
      simp only [jsTruthyNum, hv, bne_iff_ne, ne_eq, decide_not]
      exact hpos.ne'
    have hmin : idleMinutes cfg.idleTimeout = (v : ℚ) / 60000 := by
      simp [idleMinutes, hv]
    simp only [setupMiddleware, htr, if_true, List.mem_append, List.mem_cons,
      List.mem_singleton, hmin]
    tauto

/-- A sample configuration with a 300000 millisecond idle timeout. -/
def cfgIdle : Config :=
  { env := "development", name := none, version := none, url := "http://localhost:5000",
    apiVer := none, apiPref := none, uploadLimit := none, helmetEnabled := false,
    corsEnabled := true, corsOrigins := ["http://localhost:3000"], sanitizeEnabled := false,
    loggingEnabled := false, sessionStore := "memory", idleTimeout := some 300000 }

/-- Witness for C9: the idle stage is present with threshold five minutes for a
300000 millisecond timeout and absent for an absent timeout. -/
theorem c9_witness :
    Stage.idleTimeoutStage (((300000 : Int) : ℚ) / 60000) ∈ setupMiddleware cfgIdle ∧
      Stage.idleTimeoutStage 5 ∉ setupMiddleware cfgNoCors :=
  ⟨(c9_idle_timeout_install cfgIdle).2 300000 rfl (by norm_num),
    (c9_idle_timeout_install cfgNoCors).1 (Or.inl rfl) 5⟩

/- ===== Routes, from setupRoutes ===== -/

/-- The API version segment, defaulting to v1. -/
def apiVersionOf (cfg : Config) : String := jsOrStr cfg.apiVer "v1"

/-- The API path root, defaulting to the api segment. -/
def apiPrefOf (cfg : Config) : String := jsOrStr cfg.apiPref "/api"

/-- The body of the root route response. -/
structure RootBody where
  name : String
  description : String
  version : String
  documentation : String
  status : String
  healthEndpoint : String
  apiEndpoint : String
deriving DecidableEq, Repr

/-- The root route handler from setupRoutes: a 200 response with an
informational body. The datastore readiness argument stands for the runtime
state the handler could observe; the handler does not consult it. -/
def rootHandler (cfg : Config) (_dbReady : Bool) : Nat × RootBody :=
  (200,
    { name := jsOrStr cfg.name "Consulting Platform API"
      description := "Enterprise Consulting Platform API"
      version := jsOrStr cfg.version "3.0.0"
      documentation := cfg.url ++ "/docs"
      status := "operational"
      healthEndpoint := "/health"
      apiEndpoint := apiPrefOf cfg ++ "/" ++ apiVersionOf cfg })

/-- C10: every request to the root endpoint gets HTTP status 200 and body
status operational, regardless of datastore readiness or other runtime
state. -/
theorem c10_root_operational (cfg : Config) (dbReady : Bool) :
    (rootHandler cfg dbReady).1 = 200 ∧
      (rootHandler cfg dbReady).2.status = "operational" ∧
      ∀ otherReady : Bool, rootHandler cfg dbReady = rootHandler cfg otherReady := by
  exact ⟨rfl, rfl, fun _ => rfl⟩

/- ===== Health endpoint, from setupRoutes ===== -/

/-- The datastore status record returned by the database status query. -/
structure DbStatus where
  status : String
  ready : Bool
  message : String
deriving DecidableEq, Repr

/-- A process memory usage sample, in bytes. -/
structure MemoryUsage where
  rss : Nat
  heapTotal : Nat
  heapUsed : Nat
deriving DecidableEq, Repr

/-- Rounds a byte count to megabytes the way the health handler does with
Math.round over two divisions by 1024: nearest integer, halves up. -/
def roundMB (n : Nat) : Nat := (2 * n + 1048576) / 2097152

/-- Formats a byte count as the megabyte string of the health response. -/
def mbString (n : Nat) : String := toString (roundMB n) ++ "MB"

/-- The body of the health endpoint response. -/
structure HealthBody where
  status : String
  timestamp : String
  serviceName : Option String
  serviceVersion : String
  environment : String
  uptime : Nat
  dbState : String
  dbReady : Bool
  dbMessage : String
  memRss : String
  memHeapTotal : String
  memHeapUsed : String
deriving DecidableEq, Repr

/-- The health endpoint handler from setupRoutes. -/
def healthHandler (cfg : Config) (db : DbStatus) (mem : MemoryUsage) (uptime : Nat)
    (now : String) : Nat × HealthBody :=
  ((if db.ready then 200 else 503),
    { status := if db.ready then "healthy" else "unhealthy"
      timestamp := now
      serviceName := cfg.name
      serviceVersion := jsOrStr cfg.version "3.0.0"
      environment := cfg.env
      uptime := uptime
      dbState := db.status
      dbReady := db.ready
      dbMessage := db.message
      memRss := mbString mem.rss
      memHeapTotal := mbString mem.heapTotal
      memHeapUsed := mbString mem.heapUsed })

/-- C5: the health endpoint returns 200 and a healthy status when the
datastore is ready, 503 and unhealthy otherwise, and in both cases the body
carries the service name, version, environment, uptime and the three memory
figures in megabytes. -/
theorem c5_health_contract (cfg : Config) (db : DbStatus) (mem : MemoryUsage)
    (uptime : Nat) (now : String) :
    (healthHandler cfg db mem uptime now).1 = (if db.ready then 200 else 503) ∧
      (healthHandler cfg db mem uptime now).2.status =
        (if db.ready then "healthy" else "unhealthy") ∧
      (healthHandler cfg db mem uptime now).2.serviceName = cfg.name ∧
      (healthHandler cfg db mem uptime now).2.serviceVersion = jsOrStr cfg.version "3.0.0" ∧
      (healthHandler cfg db mem uptime now).2.environment = cfg.env ∧
      (healthHandler cfg db mem uptime now).2.uptime = uptime ∧
      (healthHandler cfg db mem uptime now).2.memRss = mbString mem.rss ∧
      (healthHandler cfg db mem uptime now).2.memHeapTotal = mbString mem.heapTotal ∧
      (healthHandler cfg db mem uptime now).2.memHeapUsed = mbString mem.heapUsed := by
  exact ⟨rfl, rfl, rfl, rfl, rfl, rfl, rfl, rfl, rfl⟩

/- ===== Lifecycle controller: start, from the start method ===== -/

/-- Events recorded during startup, in execution order. -/
inductive StartEvent
  | dbConnectResolved
  | middlewareSetup
  | passportInvoked
  | passportResolved
  | routesMounted
  | errorHandlersInstalled
deriving DecidableEq, Repr

/-- The two startup failure modes that abort start. -/
inductive StartError
  | dbConnectFailed
  | passportInitFailed
deriving DecidableEq, Repr

/-- The start method: await the datastore connection, then run the
initialization sequence, which calls setupMiddleware, awaits setupPassport,
then calls setupRoutes and setupErrorHandling; a datastore or passport failure
aborts the remaining steps and the error is rethrown to the caller. The
returned trace lists the steps that completed, in order, next to the
propagated error if any. -/
def startRun (connectOk passportOk : Bool) : List StartEvent × Option StartError :=
  if connectOk then
    if passportOk then
      ([StartEvent.dbConnectResolved, StartEvent.middlewareSetup,
        StartEvent.passportInvoked, StartEvent.passportResolved,
        StartEvent.routesMounted, StartEvent.errorHandlersInstalled], none)
    else
      ([StartEvent.dbConnectResolved, StartEvent.middlewareSetup,
        StartEvent.passportInvoked], some StartError.passportInitFailed)
  else ([], some StartError.dbConnectFailed)

/-- C2: in every execution of start, the authentication bootstrap is invoked
only after the datastore connection resolved successfully, routes are mounted
only after middleware setup completed, and a datastore or passport failure
aborts startup with the error propagated to the caller. -/
theorem c2_start_ordering (connectOk passportOk : Bool) :
    (StartEvent.passportInvoked ∈ (startRun connectOk passportOk).1 →
      StartEvent.dbConnectResolved ∈ (startRun connectOk passportOk).1 ∧
        (startRun connectOk passportOk).1.indexOf StartEvent.dbConnectResolved <
          (startRun connectOk passportOk).1.indexOf StartEvent.passportInvoked) ∧
    (StartEvent.routesMounted ∈ (startRun connectOk passportOk).1 →
      StartEvent.middlewareSetup ∈ (startRun connectOk passportOk).1 ∧
        (startRun connectOk passportOk).1.indexOf StartEvent.middlewareSetup <
          (startRun connectOk passportOk).1.indexOf StartEvent.routesMounted) ∧
    (connectOk = false →
      (startRun connectOk passportOk).2 = some StartError.dbConnectFailed ∧
        StartEvent.passportInvoked ∉ (startRun connectOk passportOk).1 ∧
        StartEvent.routesMounted ∉ (startRun connectOk passportOk).1) ∧
    (connectOk = true → passportOk = false →
      (startRun connectOk passportOk).2 = some StartError.passportInitFailed ∧
        StartEvent.routesMounted ∉ (startRun connectOk passportOk).1) ∧
    ((startRun connectOk passportOk).2 = none ↔
      connectOk = true ∧ passportOk = true) := by
  cases connectOk <;> cases passportOk <;> decide

/-- Witness for C2 on the successful startup path. -/
theorem c2_witness :
    (startRun true true).1.indexOf StartEvent.dbConnectResolved <
      (startRun true true).1.indexOf StartEvent.passportInvoked :=
  ((c2_start_ordering true true).1 (by decide)).2

/- ===== Lifecycle controller: stop, from the stop method ===== -/

/-- The application state relevant to shutdown: the shutdown flag, the count
of datastore close invocations, and the tracked open connections. -/
structure ShutdownState where
  isShuttingDown : Bool
  dbCloseCount : Nat
  connections : List Nat
deriving DecidableEq, Repr

/-- Outcome of one stop call: the logged no-op, a clean stop, or a rethrown
shutdown error. -/
inductive StopOutcome
  | noopLogged
  | stopped
  | errorThrown
deriving DecidableEq, Repr

/-- One call to the stop method. When the shutdown flag is set the call only
logs. Otherwise it sets the flag, ends every tracked connection, and invokes
the datastore close once; closeFails tells whether that close rejects, in
which case the error is rethrown with the flag left set. -/
def stop (closeFails : Bool) (s : ShutdownState) : ShutdownState × StopOutcome :=
  if s.isShuttingDown then (s, StopOutcome.noopLogged)
  else
    let s1 : ShutdownState :=
      { isShuttingDown := true, dbCloseCount := s.dbCloseCount + 1, connections := [] }
    if closeFails then (s1, StopOutcome.errorThrown) else (s1, StopOutcome.stopped)

/-- A sequence of stop calls, folded over the state. -/
def runStops (calls : List Bool) (s : ShutdownState) : ShutdownState :=
  calls.foldl (fun st f => (stop f st).1) s

/-- With the shutdown flag set, stop is the logged no-op. -/
theorem stop_flag_set_noop (f : Bool) (s : ShutdownState) (h : s.isShuttingDown = true) :
    stop f s = (s, StopOutcome.noopLogged) := by
  simp [stop, h]

/-- With the shutdown flag set, any sequence of stop calls leaves the state
unchanged. -/
theorem runStops_flag_set (calls : List Bool) (s : ShutdownState)
    (h : s.isShuttingDown = true) : runStops calls s = s := by
  induction calls with
  | nil => rfl
  | cons c cs ih =>
      show runStops cs (stop c s).1 = s
      rw [stop_flag_set_noop c s h]
      exact ih

/-- C3: a second stop call is always the logged no-op; the shutdown flag is
set by any stop call and never reset; a stop on an already shutting down state
changes nothing; and from a fresh state any sequence of stop calls invokes the
datastore close at most once. -/
theorem c3_stop_idempotent :
    (∀ (f : Bool) (s : ShutdownState), ((stop f s).1).isShuttingDown = true) ∧
    (∀ (f g : Bool) (s : ShutdownState),
      stop g (stop f s).1 = ((stop f s).1, StopOutcome.noopLogged)) ∧
    (∀ (f : Bool) (s : ShutdownState), s.isShuttingDown = true →
      stop f s = (s, StopOutcome.noopLogged)) ∧
    (∀ (calls : List Bool) (conns : List Nat),
      (runStops calls ⟨false, 0, conns⟩).dbCloseCount ≤ 1) := by
  have hflag : ∀ (f : Bool) (s : ShutdownState), ((stop f s).1).isShuttingDown = true := by
    intro f s
    by_cases h : s.isShuttingDown = true
    · rw [stop_flag_set_noop f s h]
      exact h
    · have h2 : s.isShuttingDown = false := by simpa using h
      cases f <;> simp [stop, h2]
  refine ⟨hflag, fun f g s => stop_flag_set_noop g (stop f s).1 (hflag f s),
    stop_flag_set_noop, fun calls conns => ?_⟩
  cases calls with
  | nil => simp [runStops]
  | cons c cs =>
      show (runStops cs (stop c ⟨false, 0, conns⟩).1).dbCloseCount ≤ 1
      have h1 : (stop c ⟨false, 0, conns⟩).1 = ⟨true, 1, []⟩ := by
        cases c <;> rfl
      rw [h1, runStops_flag_set cs ⟨true, 1, []⟩ rfl]

/-- Witness for C3 at concrete stop sequences. -/
theorem c3_witness :
    stop true ⟨true, 3, [7]⟩ = (⟨true, 3, [7]⟩, StopOutcome.noopLogged) ∧
      (runStops [true, false, true] ⟨false, 0, [5, 6]⟩).dbCloseCount ≤ 1 :=
  ⟨c3_stop_idempotent.2.2.1 true ⟨true, 3, [7]⟩ rfl,
    c3_stop_idempotent.2.2.2 [true, false, true] [5, 6]⟩

/- ===== Connection tracking, from setupMiddleware and stop ===== -/

/-- A request lifecycle event: a request starts and registers its response
handle, or finishes and deregisters it. Handles are identified by numbers. -/
inductive ReqEvent
  | start (id : Nat)
  | finish (id : Nat)
deriving DecidableEq, Repr

/-- The connection tracking middleware action for one event: add the response
handle to the set on request start, delete it on response finish. A JavaScript
Set is modelled as its insertion-ordered duplicate-free element list. -/
def connStep (l : List Nat) : ReqEvent → List Nat
  | ReqEvent.start i => if i ∈ l then l else l ++ [i]
  | ReqEvent.finish i => l.erase i

/-- The connection set after a sequence of request events, starting empty. -/
def connRun (evts : List ReqEvent) : List Nat := evts.foldl connStep []

/-- The response handles that started a request in the trace, in order. -/
def startedIds (evts : List ReqEvent) : List Nat :=
  evts.filterMap fun e =>
    match e with
    | ReqEvent.start i => some i
    | ReqEvent.finish _ => none

/-- The response handles that finished in the trace, in order. -/
def finishedIds (evts : List ReqEvent) : List Nat :=
  evts.filterMap fun e =>
    match e with
    | ReqEvent.start _ => none
    | ReqEvent.finish i => some i

/-- The handles of requests that have started but not yet finished. -/
def inFlightIds (evts : List ReqEvent) : List Nat :=
  (startedIds evts).filter fun i => decide (i ∉ finishedIds evts)

/-- Admissibility of one more event after a trace: each response handle starts
at most once, and only a started, still unfinished handle finishes. -/
def wfEventB (evts : List ReqEvent) : ReqEvent → Bool
  | ReqEvent.start i => decide (i ∉ startedIds evts)
  | ReqEvent.finish i => decide (i ∈ startedIds evts) && decide (i ∉ finishedIds evts)

/-- Helper for the well-formedness check, consuming the reversed trace. -/
def wfRev : List ReqEvent → Bool
  | [] => true
  | e :: rest => wfRev rest && wfEventB rest.reverse e

/-- A well-formed trace of request starts and finishes. -/
def wfTrace (evts : List ReqEvent) : Bool := wfRev evts.reverse

/-- The well-formedness check decomposes over a trailing event. -/
theorem wfTrace_concat (evts : List ReqEvent) (e : ReqEvent) :
    wfTrace (evts ++ [e]) = (wfTrace evts && wfEventB evts e) := by
  simp [wfTrace, wfRev, List.reverse_append]

/-- The connection set after a trailing event is one step from the set before
it. -/
theorem connRun_concat (evts : List ReqEvent) (e : ReqEvent) :
    connRun (evts ++ [e]) = connStep (connRun evts) e := by
  simp [connRun, List.foldl_append]

/-- Inductive invariant of connection tracking on well-formed traces: the set
is exactly the in-flight handle list, the started handles are duplicate-free,
and every finished handle had started. -/
theorem connRun_invariant (evts : List ReqEvent) (h : wfTrace evts = true) :
    connRun evts = inFlightIds evts ∧ (startedIds evts).Nodup ∧
      ∀ x ∈ finishedIds evts, x ∈ startedIds evts := by
  induction evts using List.reverseRecOn with
  | nil => exact ⟨rfl, List.nodup_nil, by simp [finishedIds]⟩
  | append_singleton es e ih =>
      rw [wfTrace_concat] at h
      obtain ⟨hwf, hev⟩ := Bool.and_eq_true_iff.mp h
      obtain ⟨ihRun, ihNodup, ihSub⟩ := ih hwf
      cases e with
      | start i =>
          have hid : i ∉ startedIds es := by simpa [wfEventB] using hev
          have hidf : i ∉ finishedIds es := fun hm => hid (ihSub i hm)
          have hstart : startedIds (es ++ [ReqEvent.start i]) = startedIds es ++ [i] := by
            simp [startedIds]
          have hfin : finishedIds (es ++ [ReqEvent.start i]) = finishedIds es := by
            simp [finishedIds]
          have hnotin : i ∉ inFlightIds es := fun hm => hid (List.mem_of_mem_filter hm)
          have hflight : inFlightIds (es ++ [ReqEvent.start i]) = inFlightIds es ++ [i] := by
            unfold inFlightIds
            rw [hstart, hfin, List.filter_append]
            simp [hidf]
          refine ⟨?_, ?_, ?_⟩
          · rw [connRun_concat, ihRun, hflight]
            show (if i ∈ inFlightIds es then inFlightIds es else inFlightIds es ++ [i]) = _
            rw [if_neg hnotin]
          · rw [hstart]
            simp [List.nodup_append, ihNodup, hid]
          · rw [hstart, hfin]
            intro x hx
            exact List.mem_append_left _ (ihSub x hx)
      | finish i =>
          obtain ⟨hmem, hnf⟩ : i ∈ startedIds es ∧ i ∉ finishedIds es := by
            simpa [wfEventB] using hev
          have hstart : startedIds (es ++ [ReqEvent.finish i]) = startedIds es := by
            simp [startedIds]
          have hfin : finishedIds (es ++ [ReqEvent.finish i]) = finishedIds es ++ [i] := by
            simp [finishedIds]
          refine ⟨?_, ?_, ?_⟩
          · rw [connRun_concat, ihRun]
            show (inFlightIds es).erase i = inFlightIds (es ++ [ReqEvent.finish i])
            have hnd : (inFlightIds es).Nodup := List.Nodup.filter _ ihNodup
            rw [List.Nodup.erase_eq_filter hnd i]
            unfold inFlightIds
            rw [hstart, hfin, List.filter_filter]
            apply List.filter_congr
            intro x _
            by_cases hx1 : x ∈ finishedIds es <;> by_cases hx2 : x = i <;>
              simp [hx1, hx2]
          · rw [hstart]
            exact ihNodup
          · rw [hstart, hfin]
            intro x hx
            rcases List.mem_append.mp hx with hx | hx
            · exact ihSub x hx
            · rw [List.mem_singleton.mp hx]
              exact hmem

/-- C4: on any well-formed sequence of request starts and finishes, the
connection set holds exactly the handles of requests that started but did not
yet finish, its size is the number of in-flight requests, and its elements are
pairwise distinct, so the shutdown loop never closes the same connection
twice. -/
theorem c4_connection_set_invariant (evts : List ReqEvent) (h : wfTrace evts = true) :
    connRun evts = inFlightIds evts ∧
      (connRun evts).length = (inFlightIds evts).length ∧
      (connRun evts).Nodup ∧
      ∀ i : Nat, (connRun evts).count i ≤ 1 := by
  obtain ⟨hrun, hnodup, _⟩ := connRun_invariant evts h
  have hnd : (connRun evts).Nodup := by
    rw [hrun]
    exact List.Nodup.filter _ hnodup
  exact ⟨hrun, by rw [hrun], hnd, fun i => List.nodup_iff_count_le_one.mp hnd i⟩

/-- Witness for C4 on a concrete interleaved trace. -/
theorem c4_witness :
    connRun [ReqEvent.start 1, ReqEvent.start 2, ReqEvent.finish 1, ReqEvent.start 3] =
        inFlightIds [ReqEvent.start 1, ReqEvent.start 2, ReqEvent.finish 1,
          ReqEvent.start 3] ∧
      (connRun [ReqEvent.start 1, ReqEvent.start 2, ReqEvent.finish 1,
          ReqEvent.start 3]).count 2 ≤ 1 :=
  ⟨(c4_connection_set_invariant _ (by decide)).1,
    (c4_connection_set_invariant _ (by decide)).2.2.2 2⟩

/- ===== Router dispatch and the catch-all, from setupRoutes ===== -/

/-- How a mounted handler matches a request path. -/
inductive RouteKind
  | mountPoint
  | getExact
  | allWild
deriving DecidableEq, Repr

/-- One mounted route: its matching kind, mount path, and handler tag. -/
structure Route where
  kind : RouteKind
  path : String
  tag : String
deriving DecidableEq, Repr

/-- Modelled from the spec: the router dispatch contract of the web framework,
which tries mounted handlers in registration order; a mounted sub-router
matches its mount path and any path below it, a get route matches its exact
path, and the wildcard matches every path. -/
def routeMatches (method p : String) (r : Route) : Bool :=
  match r.kind with
  | RouteKind.mountPoint => p == r.path || leadsWith p.data (r.path ++ "/").data
  | RouteKind.getExact => method == "GET" && p == r.path
  | RouteKind.allWild => true

/-- The routes mounted by setupRoutes, in registration order: the versioned
API router, the documentation router, the health, session check, development
only session debug and root endpoints, and the wildcard catch-all. -/
def appRoutes (cfg : Config) : List Route :=
  [⟨RouteKind.mountPoint, apiPrefOf cfg ++ "/" ++ apiVersionOf cfg, "api"⟩,
    ⟨RouteKind.mountPoint, "/docs", "docs"⟩,
    ⟨RouteKind.getExact, "/health", "health"⟩,
    ⟨RouteKind.getExact, "/session-check", "sessionCheck"⟩] ++
  (if cfg.env = "development" then [⟨RouteKind.getExact, "/session-debug", "sessionDebug"⟩]
  else []) ++
  [⟨RouteKind.getExact, "/", "root"⟩,
    ⟨RouteKind.allWild, "*", "catchAll"⟩]

/-- Modelled from the spec: the AppError shape of the shared utilities, an
error value carrying a message and an HTTP status code. -/
structure AppError where
  message : String
  statusCode : Nat
deriving DecidableEq, Repr

/-- The message of the catch-all handler, containing the requested path. The
apostrophe is written as character 39. -/
def cannotFindMsg (url : String) : String :=
  "Can" ++ String.singleton (Char.ofNat 39) ++ "t find " ++ url ++ " on this server!"

/-- The not-found error built by the catch-all handler in setupRoutes. -/
def catchAllError (url : String) : AppError :=
  ⟨cannotFindMsg url, 404⟩

/-- How a request leaves the router: handled by a mounted handler, or carried
as an error into the terminal error handler. -/
inductive RequestOutcome
  | handledBy (tag : String)
  | errorHandled (e : AppError)
deriving DecidableEq, Repr

/-- Dispatch of one request through the mounted routes: the first matching
route handles it; the catch-all forwards the not-found error to the terminal
error handler. -/
def runRequest (cfg : Config) (method p : String) : RequestOutcome :=
  match (appRoutes cfg).find? (routeMatches method p) with
  | some r =>
      if r.tag = "catchAll" then RequestOutcome.errorHandled (catchAllError p)
      else RequestOutcome.handledBy r.tag
  | none => RequestOutcome.handledBy "unreachable"

/-- C6: a request matching no mounted route is turned into a not-found error
with status 404 whose message contains the requested path, and that error goes
to the terminal error handler. -/
theorem c6_unmatched_route_404 (cfg : Config) (method p : String)
    (h : ∀ r ∈ appRoutes cfg, r.tag ≠ "catchAll" → routeMatches method p r = false) :
    ∃ e : AppError, runRequest cfg method p = RequestOutcome.errorHandled e ∧
      e.statusCode = 404 ∧ ∃ a b : String, e.message = a ++ p ++ b := by
  have hsome : ((appRoutes cfg).find? (routeMatches method p)).isSome := by
    rw [List.find?_isSome]
    exact ⟨⟨RouteKind.allWild, "*", "catchAll"⟩, by simp [appRoutes], rfl⟩
  obtain ⟨r, hr⟩ := Option.isSome_iff_exists.mp hsome
  have hrmem : r ∈ appRoutes cfg := List.mem_of_find?_eq_some hr
  have hrmatch : routeMatches method p r = true := List.find?_some hr
  have htag : r.tag = "catchAll" := by
    by_contra hne
    rw [h r hrmem hne] at hrmatch
    cases hrmatch
  refine ⟨catchAllError p, ?_, rfl,
    "Can" ++ String.singleton (Char.ofNat 39) ++ "t find ", " on this server!", rfl⟩
  simp [runRequest, hr, htag]

/-- Witness for C6 at a concrete unmatched path. -/
theorem c6_witness :
    ∃ e : AppError,
      runRequest cfgNoCors "GET" "/does-not-exist" = RequestOutcome.errorHandled e ∧
        e.statusCode = 404 ∧ ∃ a b : String, e.message = a ++ "/does-not-exist" ++ b :=
  c6_unmatched_route_404 cfgNoCors "GET" "/does-not-exist" (by decide)

/- ===== Body parsing, from setupMiddleware ===== -/

/-- The content type of an inbound request body. -/
inductive ContentType
  | jsonCT
  | formCT
  | otherCT
deriving DecidableEq, Repr

/-- Failure of a body parsing stage. -/
inductive BodyError
  | payloadTooLarge
deriving DecidableEq, Repr

/-- The request object fields written by the body parsing stages. -/
structure ParsedRequest where
  rawBody : Option String
  jsonBody : Option String
  formBody : Option String
deriving DecidableEq, Repr

/-- Modelled from the spec: the JSON body parser of the web framework applies
only to requests with the JSON content type and enforces the size ceiling; its
verify hook, supplied at the call site in setupMiddleware, stores the raw body
text on the request object. -/
def jsonParserStage (limit : Nat) (ct : ContentType) (raw : String)
    (req : ParsedRequest) : Except BodyError ParsedRequest :=
  if ct = ContentType.jsonCT then
    if limit < raw.length then Except.error BodyError.payloadTooLarge
    else Except.ok { req with rawBody := some raw, jsonBody := some raw }
  else Except.ok req

/-- Modelled from the spec: the form body parser applies only to requests with
the form content type and enforces the size ceiling; no raw-body hook is
supplied to it at the call site in setupMiddleware. -/
def urlencodedParserStage (limit : Nat) (ct : ContentType) (raw : String)
    (req : ParsedRequest) : Except BodyError ParsedRequest :=
  if ct = ContentType.formCT then
    if limit < raw.length then Except.error BodyError.payloadTooLarge
    else Except.ok { req with formBody := some raw }
  else Except.ok req

/-- The body parsing part of the pipeline: the JSON parser runs first, then
the form parser, as installed by setupMiddleware. -/
def bodyParsing (limit : Nat) (ct : ContentType) (raw : String) :
    Except BodyError ParsedRequest :=
  match jsonParserStage limit ct raw ⟨none, none, none⟩ with
  | Except.error e => Except.error e
  | Except.ok req => urlencodedParserStage limit ct raw req

/-- Counterexample to C7 as stated: a form-encoded body within the ceiling is
parsed, but the raw body is not captured on the request object. -/
theorem c7_counterexample :
    bodyParsing 1048576 ContentType.formCT "a=1" =
        Except.ok ⟨none, none, some "a=1"⟩ ∧
      (⟨none, none, some "a=1"⟩ : ParsedRequest).rawBody ≠ some "a=1" := by
  constructor
  · rfl
  · intro h
    cases h

/-- C7 amended: for JSON bodies within the size ceiling the raw body is
captured verbatim alongside the parsed content; form-encoded bodies within
the ceiling are parsed without raw-body capture; bodies over the ceiling are
rejected. -/
theorem c7_raw_body_json_only (limit : Nat) (raw : String) :
    (raw.length ≤ limit →
      bodyParsing limit ContentType.jsonCT raw =
        Except.ok ⟨some raw, some raw, none⟩) ∧
    (raw.length ≤ limit →
      bodyParsing limit ContentType.formCT raw =
        Except.ok ⟨none, none, some raw⟩) ∧
    (limit < raw.length →
      bodyParsing limit ContentType.jsonCT raw = Except.error BodyError.payloadTooLarge ∧
        bodyParsing limit ContentType.formCT raw =
          Except.error BodyError.payloadTooLarge) := by
  refine ⟨fun hle => ?_, fun hle => ?_, fun hlt => ⟨?_, ?_⟩⟩
  · have hnot : ¬ limit < raw.length := Nat.not_lt.mpr hle
    simp [bodyParsing, jsonParserStage, urlencodedParserStage, hnot]
  · have hnot : ¬ limit < raw.length := Nat.not_lt.mpr hle
    simp [bodyParsing, jsonParserStage, urlencodedParserStage, hnot]
  · simp [bodyParsing, jsonParserStage, urlencodedParserStage, hlt]
  · simp [bodyParsing, jsonParserStage, urlencodedParserStage, hlt]

/-- Witness for the amended C7 at concrete bodies. -/
theorem c7_witness :
    bodyParsing 10 ContentType.jsonCT "ab" = Except.ok ⟨some "ab", some "ab", none⟩ ∧
      bodyParsing 1 ContentType.jsonCT "abc" = Except.error BodyError.payloadTooLarge :=
  ⟨(c7_raw_body_json_only 10 "ab").1 (by decide),
    ((c7_raw_body_json_only 1 "abc").2.2 (by decide)).1⟩
